import Mathlib

/-!
Verification of the `tcbon` single-instance coordination library
(`src/tcbon.py`) against its natural-language specification.

The Python module is shallowly embedded: the `Process` object becomes the
`ProcState` structure, each method becomes a Lean function threading the
state explicitly, and every operation that can raise a Python exception
returns `Except PyErr`.  External effects (the filesystem, `requests`,
`os.getpid`, `subprocess`, `appdirs.user_data_dir`) are supplied by an
`Env` record of oracles and an explicit file map `Fs`, so every function
is executable on concrete inputs.
-/

/-- PyVal models the dynamically typed Python/JSON values the module moves
around: `None`, booleans, integers, strings, lists and string-keyed dicts. -/
inductive PyVal where
  | none
  | bool (b : Bool)
  | int (n : Int)
  | str (s : String)
  | list (xs : List PyVal)
  | dict (xs : List (String × PyVal))

/-- PyErr enumerates the Python exception classes the embedded code can
raise or catch. -/
inductive PyErr where
  | ioError
  | valueError
  | typeError
  | keyError
  | attributeError
  | connectionError
  | unboundLocalError
  | processExists
  | processDoesNotExist
  deriving DecidableEq

/-- Python truthiness (`if x:`) for the values of `PyVal`. -/
def pyTruthy : PyVal → Bool
  | PyVal.none => false
  | PyVal.bool b => b
  | PyVal.int n => decide (n ≠ 0)
  | PyVal.str s => decide (s ≠ "")
  | PyVal.list xs => !xs.isEmpty
  | PyVal.dict xs => !xs.isEmpty

/-- Python `str()` on the scalar values that reach it in the embedded code
(`_write_pid_file` applies it to the integer pid). -/
def pyStr : PyVal → String
  | PyVal.none => "None"
  | PyVal.bool b => if b then "True" else "False"
  | PyVal.int n => toString n
  | PyVal.str s => s
  | PyVal.list _ => "[...]"
  | PyVal.dict _ => "\x7b...\x7d"

/-- First value stored under a key, mirroring Python dict lookup on the
association lists used for dicts, registries and the file map. -/
def lookupKey {α : Type} : List (String × α) → String → Option α
  | [], _ => none
  | (k', v) :: rest, k => if k' = k then some v else lookupKey rest k

/-- Python dict assignment `d[k] = v`: replace in place, else append. -/
def dictSet {α : Type} : List (String × α) → String → α → List (String × α)
  | [], k, v => [(k, v)]
  | (k', v') :: rest, k, v =>
    if k' = k then (k', v) :: rest else (k', v') :: dictSet rest k v

/-- Python `d.pop(k, None)`: drop the entry for `k` when present. -/
def dictPop {α : Type} : List (String × α) → String → List (String × α)
  | [], _ => []
  | (k', v') :: rest, k =>
    if k' = k then rest else (k', v') :: dictPop rest k

/-- Python subscript `v[k]`: `KeyError` when the key is absent, `TypeError`
when the value is not a dict. -/
def pySubscript (v : PyVal) (k : String) : Except PyErr PyVal :=
  match v with
  | PyVal.dict d =>
    match lookupKey d k with
    | some x => Except.ok x
    | none => Except.error PyErr.keyError
  | _ => Except.error PyErr.typeError

/-- Python `s.lstrip(c)` for a single strip character. -/
def pyLstrip (c : Char) (s : String) : String :=
  String.mk (s.data.dropWhile (fun x => x = c))

/-- Python `s.rstrip(c)` for a single strip character. -/
def pyRstrip (c : Char) (s : String) : String :=
  String.mk ((s.data.reverse.dropWhile (fun x => x = c)).reverse)

/-- Whether `p` is an initial segment of `s`. -/
def startsWith : List Char → List Char → Bool
  | [], _ => true
  | _ :: _, [] => false
  | p :: ps, c :: cs => p = c && startsWith ps cs

/-- Worker for `replaceChars`: the fuel bounds the number of characters
still to be scanned, so the recursion is structural and computes by
reduction; every step consumes at least one character, so fuel equal to
the input length never runs out. -/
def replaceCharsAux (pat repl : List Char) : Nat → List Char → List Char
  | 0, s => s
  | _ + 1, [] => []
  | n + 1, c :: rest =>
    if startsWith pat (c :: rest) ∧ pat ≠ [] then
      repl ++ replaceCharsAux pat repl n (rest.drop (pat.length - 1))
    else
      c :: replaceCharsAux pat repl n rest

/-- Python `s.replace(pat, repl)` on character lists: every occurrence of
the non-empty pattern is replaced, scanning left to right. -/
def replaceChars (pat repl s : List Char) : List Char :=
  replaceCharsAux pat repl s.length s

/-- Python `f.readlines()`: split the text after every newline, keeping the
newline characters, with no empty final element. -/
def pyReadlinesAux : List Char → List Char → List String
  | [], acc => if acc = [] then [] else [String.mk acc.reverse]
  | c :: rest, acc =>
    if c = '\n' then
      String.mk (acc.reverse ++ ['\n']) :: pyReadlinesAux rest []
    else
      pyReadlinesAux rest (c :: acc)

/-- Python `f.readlines()` on a whole file content. -/
def pyReadlines (s : String) : List String :=
  pyReadlinesAux s.data []

/-- HttpResult models the outcome of a `requests.get`/`requests.post` call:
either the transport raises `requests.ConnectionError`, or an HTTP response
arrives whose truthiness is `ok` (status below 400) and whose body parses
as JSON to `body` (`Option.none` when `.json()` would raise). -/
inductive HttpResult where
  | connError
  | resp (ok : Bool) (body : Option PyVal)

/-- HandlerResult is the outcome of a registered Python event handler: a
returned payload dict, or a raised exception whose formatted traceback
(`traceback.format_exc()`) is `tb`. -/
inductive HandlerResult where
  | ok (payload : List (String × PyVal))
  | raised (tb : String)

/-- Handler is the type of a registered event handler: it receives the
event dict. -/
def Handler : Type := List (String × PyVal) → HandlerResult

/-- Env bundles the ambient effects the module consumes: the current pid,
the platform switch, the ephemeral port `get_open_port` would yield, the
`appdirs.user_data_dir` map, the HTTP client, and the exit status of the
`powershell Get-Process` probe. -/
structure Env where
  ospid : Int
  platform_win32 : Bool
  openPort : Nat
  userDataDir : String → String
  httpGet : String → HttpResult
  httpPost : String → PyVal → HttpResult
  psWait : String → Int

/-- Fs is the file map: path to current content, for the files the module
reads and writes. -/
def Fs : Type := List (String × String)

/-- Content of a file, `Option.none` when the path does not exist. -/
def fsRead (fs : Fs) (path : String) : Option String :=
  lookupKey fs path

/-- Overwrite (or create) a file. -/
def fsWrite (fs : Fs) (path content : String) : Fs :=
  dictSet fs path content

/-- ProcState carries the attributes of a `tcbon.Process` object.  `name`,
`app_dir`, `pid` and `address` are `PyVal` because the Python code stores
heterogeneous values in them (ints, strings, values read back from JSON).
The Flask `wsgi` object itself is not part of the state; its routes are
modelled as the functions below. -/
structure ProcState where
  name : PyVal
  app_dir : PyVal
  pid : PyVal
  address : PyVal
  wsgi_running : Bool
  wsgi_thread : Bool
  event_handlers : List (String × Handler)

/-- Process.init embeds `Process.__init__(name, address, app_dir)`:
`app_dir` defaults through `user_data_dir`, backslashes are normalised and
trailing slashes stripped, and a supplied address is prefixed with
`http://` after deleting every existing `http://` occurrence. -/
def Process.init (env : Env) (name : String) (address : Option String)
    (app_dir : Option String) : ProcState :=
  let ad :=
    match app_dir with
    | some d => if d = "" then env.userDataDir name else d
    | none => env.userDataDir name
  let ad2 := pyRstrip '/' (String.mk (ad.data.map (fun c => if c = '\\' then '/' else c)))
  { name := PyVal.str name
    app_dir := PyVal.str ad2
    pid := PyVal.none
    address :=
      match address with
      | some a =>
        if a = "" then PyVal.none
        else PyVal.str ("http://" ++ String.mk (replaceChars "http://".data [] a.data))
      | none => PyVal.none
    wsgi_running := false
    wsgi_thread := false
    event_handlers := [] }

/-- Process.pid_file embeds the `pid_file` property
`self.app_dir + '/.pid'`; string concatenation raises `TypeError` when
`app_dir` is not a string. -/
def Process.pid_file (st : ProcState) : Except PyErr String :=
  match st.app_dir with
  | PyVal.str d => Except.ok (d ++ "/.pid")
  | _ => Except.error PyErr.typeError

/-- Process.readPidFile embeds `_read_pid_file`: open the pid file and
unpack `f.readlines()` into `pid, address`, which raises `ValueError`
unless the content has exactly two lines (no stripping is performed). -/
def Process.readPidFile (fs : Fs) (st : ProcState) : Except PyErr (String × String) :=
  match Process.pid_file st with
  | Except.error e => Except.error e
  | Except.ok path =>
    match fsRead fs path with
    | none => Except.error PyErr.ioError
    | some content =>
      match pyReadlines content with
      | [pid, addr] => Except.ok (pid, addr)
      | _ => Except.error PyErr.valueError

/-- Process.writePidFile embeds `_write_pid_file(pid, address)`: it writes
`str(pid) + '\n' + self.address` to the pid file.  Note the body persists
`self.address` and never uses its `address` parameter; directory creation
(`os.makedirs`) has no footprint in the file map. -/
def Process.writePidFile (fs : Fs) (st : ProcState) (pid : PyVal)
    (_address : PyVal) : Except PyErr Fs :=
  match Process.pid_file st with
  | Except.error e => Except.error e
  | Except.ok path =>
    match st.address with
    | PyVal.str a => Except.ok (fsWrite fs path (pyStr pid ++ "\n" ++ a))
    | _ => Except.error PyErr.typeError

/-- runningRefresh embeds step 2 of the `running` property: when
`self.address` is truthy, `requests.get(self.address)` is issued; a
`ConnectionError` is caught (the check falls through, signalled here by
`Except.ok Option.none`), while a body that is not JSON or lacks one of
the four identity keys raises out of the property uncaught.  On success
the identity fields are overwritten from the response (`Except` erases the
partial field writes a mid-way `KeyError` would leave behind; no caller
observes them). -/
def runningRefresh (env : Env) (st : ProcState) : Except PyErr (Option ProcState) :=
  match st.address with
  | PyVal.str a =>
    match env.httpGet a with
    | HttpResult.connError => Except.ok none
    | HttpResult.resp _ none => Except.error PyErr.valueError
    | HttpResult.resp _ (some j) =>
      match pySubscript j "name" with
      | Except.error e => Except.error e
      | Except.ok nv =>
        match pySubscript j "pid" with
        | Except.error e => Except.error e
        | Except.ok pv =>
          match pySubscript j "address" with
          | Except.error e => Except.error e
          | Except.ok av =>
            match pySubscript j "app_dir" with
            | Except.error e => Except.error e
            | Except.ok dv =>
              Except.ok (some { st with name := nv, pid := pv, address := av, app_dir := dv })
  | _ => Except.error PyErr.typeError

/-- runningProbe embeds the final step of `running`:
`response = requests.get(address)` followed by `if not response: return
False` / `return True`.  The call sits outside any `try`, so a transport
failure raises `requests.ConnectionError` out of the property; only an
HTTP response that is falsy (status 400 or above) yields `False`. -/
def runningProbe (env : Env) (st : ProcState) (addr : String) :
    Except PyErr (Bool × ProcState) :=
  match env.httpGet addr with
  | HttpResult.connError => Except.error PyErr.connectionError
  | HttpResult.resp ok _ => Except.ok (ok, st)

/-- runningTail embeds steps 3-6 of the `running` property: missing pid
file means not running; an unreadable or malformed pid file is caught and
means not running; then the recorded pid is checked for OS-level existence
and the recorded address probed.  The pid local is the raw first line of
the file (a string ending in a newline): on win32 it is interpolated into
the `powershell Get-Process` command, while on every other platform
`os.kill(pid, 0)` receives a string and raises `TypeError`, which the
surrounding `except OSError` does not catch. -/
def runningTail (env : Env) (fs : Fs) (st : ProcState) : Except PyErr (Bool × ProcState) :=
  match Process.pid_file st with
  | Except.error e => Except.error e
  | Except.ok path =>
    if (fsRead fs path).isNone then Except.ok (false, st)
    else
      match Process.readPidFile fs st with
      | Except.error _ => Except.ok (false, st)
      | Except.ok (pid, addr) =>
        let st' := { st with pid := PyVal.str pid, address := PyVal.str addr }
        if env.platform_win32 then
          if env.psWait ("powershell Get-Process -Id " ++ pid) = 1 then
            Except.ok (false, st')
          else
            runningProbe env st' addr
        else
          Except.error PyErr.typeError

/-- Process.running embeds the `running` property: an owned server reports
true immediately; otherwise an explicit address is probed (refreshing the
identity on success, falling through on connection failure); otherwise the
pid file drives the OS-level and network checks of `runningTail`. -/
def Process.running (env : Env) (fs : Fs) (st : ProcState) : Except PyErr (Bool × ProcState) :=
  if st.wsgi_running then Except.ok (true, st)
  else
    if pyTruthy st.address then
      match runningRefresh env st with
      | Except.error e => Except.error e
      | Except.ok (some st') => Except.ok (true, st')
      | Except.ok none => runningTail env fs st
    else
      runningTail env fs st

/-- startTail embeds the body of `start()` after the address is settled:
`on_start` (a no-op hook), launching the Flask thread (`wsgi_thread`,
`wsgi_running`), installing signal and atexit hooks (external effects with
no state footprint), and finally `_write_pid_file(self.pid, self.address)`. -/
def startTail (fs : Fs) (st : ProcState) : Except PyErr (ProcState × Fs) :=
  let st' := { st with wsgi_thread := true, wsgi_running := true }
  match Process.writePidFile fs st' st'.pid st'.address with
  | Except.error e => Except.error e
  | Except.ok fs' => Except.ok (st', fs')

/-- Process.start embeds `start()`: raise `ProcessExists` when `running`
reports true; otherwise record `os.getpid()`, mint an ephemeral address
when none is set (`self.address.split(':')` would raise `AttributeError`
on a truthy non-string address), then start the server and persist the
pid file. -/
def Process.start (env : Env) (fs : Fs) (st : ProcState) : Except PyErr (ProcState × Fs) :=
  match Process.running env fs st with
  | Except.error e => Except.error e
  | Except.ok (true, _) => Except.error PyErr.processExists
  | Except.ok (false, st1) =>
    let st2 := { st1 with pid := PyVal.int env.ospid }
    if pyTruthy st2.address then
      match st2.address with
      | PyVal.str _ => startTail fs st2
      | _ => Except.error PyErr.attributeError
    else
      startTail fs { st2 with address := PyVal.str ("http://127.0.0.1:" ++ toString env.openPort) }

/-- Process.get embeds `get(route)`: raise `ProcessDoesNotExist` when
`running` reports false, then `requests.get(self.address + '/' +
route.lstrip('/')).json()`. -/
def Process.get (env : Env) (fs : Fs) (st : ProcState) (route : String) :
    Except PyErr (PyVal × ProcState) :=
  match Process.running env fs st with
  | Except.error e => Except.error e
  | Except.ok (false, _) => Except.error PyErr.processDoesNotExist
  | Except.ok (true, st1) =>
    match st1.address with
    | PyVal.str a =>
      match env.httpGet (a ++ "/" ++ pyLstrip '/' route) with
      | HttpResult.connError => Except.error PyErr.connectionError
      | HttpResult.resp _ none => Except.error PyErr.valueError
      | HttpResult.resp _ (some j) => Except.ok (j, st1)
    | _ => Except.error PyErr.typeError

/-- Process.send embeds `send(route, payload)`: raise
`ProcessDoesNotExist` when `running` reports false, then
`requests.post(uri, json=payload or {}).json()`. -/
def Process.send (env : Env) (fs : Fs) (st : ProcState) (route : String)
    (payload : PyVal) : Except PyErr (PyVal × ProcState) :=
  match Process.running env fs st with
  | Except.error e => Except.error e
  | Except.ok (false, _) => Except.error PyErr.processDoesNotExist
  | Except.ok (true, st1) =>
    match st1.address with
    | PyVal.str a =>
      match env.httpPost (a ++ "/" ++ pyLstrip '/' route)
          (if pyTruthy payload then payload else PyVal.dict []) with
      | HttpResult.connError => Except.error PyErr.connectionError
      | HttpResult.resp _ none => Except.error PyErr.valueError
      | HttpResult.resp _ (some j) => Except.ok (j, st1)
    | _ => Except.error PyErr.typeError

/-- Process.stop embeds `stop()`: raise `ProcessDoesNotExist` when
`running` reports false; run `on_stop` (no-op hook) when this instance
owns the server; `try: response = self.send('stop') except
requests.ConnectionError: log`.  When the send raised `ConnectionError`
the local `response` was never assigned, so after the thread join and the
state reset the final `return response` raises `UnboundLocalError` (the
`Except.error` erases those resets, which the raise makes unobservable
through this call). -/
def Process.stop (env : Env) (fs : Fs) (st : ProcState) : Except PyErr (PyVal × ProcState) :=
  match Process.running env fs st with
  | Except.error e => Except.error e
  | Except.ok (false, _) => Except.error PyErr.processDoesNotExist
  | Except.ok (true, st1) =>
    match Process.send env fs st1 "stop" PyVal.none with
    | Except.error PyErr.connectionError => Except.error PyErr.unboundLocalError
    | Except.error e => Except.error e
    | Except.ok (resp, st2) =>
      Except.ok (resp, { st2 with wsgi_running := false, wsgi_thread := false })

/-- Process.index embeds the `GET /` route: it serialises the literal dict
of the source, whose first key is spelled `succes` and whose pid is
`str(os.getpid())`. -/
def Process.index (env : Env) (st : ProcState) : List (String × PyVal) :=
  [("succes", PyVal.bool true),
   ("name", st.name),
   ("pid", PyVal.str (pyStr (PyVal.int env.ospid))),
   ("app_dir", st.app_dir),
   ("address", st.address)]

/-- handlersGet embeds `self.event_handlers.get(event['name'], None)`:
dict keys are strings, so a string name is looked up, unhashable names
(lists, dicts) raise `TypeError`, and any other hashable value simply
misses. -/
def handlersGet (handlers : List (String × Handler)) (nameVal : PyVal) :
    Except PyErr (Option Handler) :=
  match nameVal with
  | PyVal.str s => Except.ok (lookupKey handlers s)
  | PyVal.list _ => Except.error PyErr.typeError
  | PyVal.dict _ => Except.error PyErr.typeError
  | _ => Except.ok none

/-- duplicateSuccessTb stands for the traceback `traceback.format_exc()`
yields when `dict(success=True, **payload)` raises `TypeError` because the
payload already carries a `success` key (that raise happens inside the
same `try` as the handler call). -/
def duplicateSuccessTb : String :=
  "TypeError: dict got multiple values for keyword argument success"

/-- Process.handleEvent embeds `_handle_event(event)`: look up the handler
under `event['name']`; a registered handler is invoked inside `try`, its
returned payload merged as `dict(success=True, **payload)`, and any raise
converted to a success-false response whose message is the formatted
traceback; without a handler, a success-true acknowledgement naming the
event is returned (`'...' + event['name']` raises `TypeError` when the
name is not a string).  The method never assigns to `self`, so the state
comes back unchanged. -/
def Process.handleEvent (st : ProcState) (event : List (String × PyVal)) :
    Except PyErr (List (String × PyVal) × ProcState) :=
  match lookupKey event "name" with
  | none => Except.error PyErr.keyError
  | some nameVal =>
    match handlersGet st.event_handlers nameVal with
    | Except.error e => Except.error e
    | Except.ok (some handler) =>
      match handler event with
      | HandlerResult.ok payload =>
        if payload.any (fun kv => kv.fst = "success") then
          Except.ok ([("success", PyVal.bool false),
                      ("message", PyVal.str duplicateSuccessTb)], st)
        else
          Except.ok (("success", PyVal.bool true) :: payload, st)
      | HandlerResult.raised tb =>
        Except.ok ([("success", PyVal.bool false), ("message", PyVal.str tb)], st)
    | Except.ok none =>
      match nameVal with
      | PyVal.str s =>
        Except.ok ([("success", PyVal.bool true),
                    ("message", PyVal.str ("Event received. no handler found for " ++ s))], st)
      | _ => Except.error PyErr.typeError

/-- Process.receiveEvent embeds the `POST /event` route: a body without
the key `name` is answered directly with the fixed success-false message,
otherwise the event is forwarded to `_handle_event`. -/
def Process.receiveEvent (st : ProcState) (event : List (String × PyVal)) :
    Except PyErr (List (String × PyVal) × ProcState) :=
  if (lookupKey event "name").isNone then
    Except.ok ([("success", PyVal.bool false),
                ("message", PyVal.str "Event missing required field \"name\".")], st)
  else
    Process.handleEvent st event

/-- Process.registerEventHandler embeds `register_event_handler`: plain
dict assignment, last registration wins. -/
def Process.registerEventHandler (st : ProcState) (event : String)
    (handler : Handler) : ProcState :=
  { st with event_handlers := dictSet st.event_handlers event handler }

/-- Process.unregisterEventHandler embeds `unregister_event_handler`:
`self.event_handlers.pop(event, None)`, a total operation. -/
def Process.unregisterEventHandler (st : ProcState) (event : String) : ProcState :=
  { st with event_handlers := dictPop st.event_handlers event }


/-- Looking up the key just stored finds the stored value. -/
theorem lookup_dictSet_self {α : Type} (d : List (String × α)) (k : String) (v : α) :
    lookupKey (dictSet d k v) k = some v := by
  induction d with
  | nil => simp [dictSet, lookupKey]
  | cons kv rest ih =>
    obtain ⟨k', v'⟩ := kv
    by_cases h : k' = k <;> simp [dictSet, lookupKey, h, ih]

/-- A key that occurs nowhere in a map is not found. -/
theorem lookup_eq_none_of_not_mem {α : Type} (d : List (String × α)) (k : String)
    (h : k ∉ d.map Prod.fst) : lookupKey d k = none := by
  induction d with
  | nil => rfl
  | cons kv rest ih =>
    obtain ⟨k', v'⟩ := kv
    simp only [List.map_cons, List.mem_cons] at h
    push_neg at h
    simp [lookupKey, Ne.symm h.1, ih h.2]

/-- After popping a key from a map with no duplicate keys, the key is gone. -/
theorem lookup_dictPop_self {α : Type} (d : List (String × α)) (k : String)
    (h : (d.map Prod.fst).Nodup) : lookupKey (dictPop d k) k = none := by
  induction d with
  | nil => rfl
  | cons kv rest ih =>
    obtain ⟨k', v'⟩ := kv
    simp only [List.map_cons, List.nodup_cons] at h
    by_cases hk : k' = k
    · subst hk
      simp [dictPop, lookup_eq_none_of_not_mem rest k' h.1]
    · simp [dictPop, lookupKey, hk, ih h.2]

/-- Popping one key leaves the lookup of every other key unchanged. -/
theorem lookup_dictPop_other {α : Type} (d : List (String × α)) (k x : String)
    (h : x ≠ k) : lookupKey (dictPop d k) x = lookupKey d x := by
  induction d with
  | nil => rfl
  | cons kv rest ih =>
    obtain ⟨k', v'⟩ := kv
    by_cases hk : k' = k
    · subst hk
      have hx : k' ≠ x := fun he => h (he.symm)
      simp [dictPop, lookupKey, hx]
    · simp [dictPop, lookupKey, hk, ih]

/-- String concatenation concatenates the character lists. -/
theorem strData_append (s t : String) : (s ++ t).data = s.data ++ t.data := rfl

/-- Scanning a newline-free prefix followed by a newline emits exactly one
line made of the accumulator, that prefix and the newline. -/
theorem pyReadlinesAux_newline (p : List Char) (rest acc : List Char)
    (hp : ∀ c ∈ p, c ≠ '\n') :
    pyReadlinesAux (p ++ '\n' :: rest) acc =
      String.mk (acc.reverse ++ p ++ ['\n']) :: pyReadlinesAux rest [] := by
  induction p generalizing acc with
  | nil => simp [pyReadlinesAux]
  | cons c cs ih =>
    have hc : c ≠ '\n' := hp c (by simp)
    have ihc := ih (c :: acc) (fun x hx => hp x (by simp [hx]))
    simp only [List.cons_append, pyReadlinesAux, if_neg hc, List.append_eq] at ihc ⊢
    rw [ihc]
    simp [List.append_assoc]

/-- Scanning a newline-free tail emits a single line (or nothing when both
the tail and the accumulator are empty). -/
theorem pyReadlinesAux_no_newline (a acc : List Char)
    (ha : ∀ c ∈ a, c ≠ '\n') :
    pyReadlinesAux a acc =
      if acc.reverse ++ a = [] then [] else [String.mk (acc.reverse ++ a)] := by
  induction a generalizing acc with
  | nil =>
    by_cases hacc : acc = [] <;> simp [pyReadlinesAux, hacc]
  | cons c cs ih =>
    have hc : c ≠ '\n' := ha c (by simp)
    have ihc := ih (c :: acc) (fun x hx => ha x (by simp [hx]))
    simp only [pyReadlinesAux, if_neg hc, List.reverse_cons, List.append_assoc,
      List.cons_append, List.nil_append] at ihc ⊢
    rw [ihc]

/-- The pid-file layout `line1 ++ '\n' ++ line2` read back with Python
`readlines` yields exactly the two lines, the first keeping its newline,
whenever neither payload contains a newline and the second is nonempty. -/
theorem pyReadlines_two_lines (p a : String)
    (hp : ∀ c ∈ p.data, c ≠ '\n') (ha : ∀ c ∈ a.data, c ≠ '\n') (hane : a ≠ "") :
    pyReadlines (p ++ "\n" ++ a) = [p ++ "\n", a] := by
  have hadata : a.data ≠ [] := by
    intro hd
    apply hane
    cases a with
    | mk l => simp only at hd; rw [hd]
  have hdata : (p ++ "\n" ++ a).data = p.data ++ '\n' :: a.data := by
    rw [strData_append, strData_append, List.append_assoc]
    rfl
  unfold pyReadlines
  rw [hdata, pyReadlinesAux_newline p.data a.data [] hp,
      pyReadlinesAux_no_newline a.data [] ha]
  simp only [List.reverse_nil, List.nil_append, if_neg hadata]
  constructor

/-- Length of a string concatenation. -/
theorem strLength_append (s t : String) : (s ++ t).length = s.length + t.length := by
  show (s ++ t).data.length = s.data.length + t.data.length
  rw [strData_append, List.length_append]

/-- C1: for every Process, calling start() when the running property
reports true raises ProcessExists; when it reports false, start() does not
raise ProcessExists and proceeds to start the server: it returns normally
with the wsgi thread running (states reachable from the constructor carry
a string app_dir and a None-or-string address, which the second part
assumes of the state the liveness check produced). -/
theorem start_guard_matches_liveness (env : Env) (fs : Fs) (st : ProcState) :
    (∀ st1, Process.running env fs st = Except.ok (true, st1) →
      Process.start env fs st = Except.error PyErr.processExists) ∧
    (∀ st1 d, Process.running env fs st = Except.ok (false, st1) →
      st1.app_dir = PyVal.str d →
      (st1.address = PyVal.none ∨ ∃ a, st1.address = PyVal.str a) →
      ∃ st2 fs2, Process.start env fs st = Except.ok (st2, fs2) ∧
        st2.wsgi_running = true ∧ st2.wsgi_thread = true) := by
  constructor
  · intro st1 h
    unfold Process.start
    rw [h]
  · intro st1 d h hd haddr
    unfold Process.start
    rw [h]
    obtain ⟨nm, ad, pd, addr, wr, wt, eh⟩ := st1
    simp only at hd
    subst hd
    rcases haddr with hnone | ⟨a, ha⟩
    · simp only at hnone
      subst hnone
      exact ⟨_, _, rfl, rfl, rfl⟩
    · simp only at ha
      subst ha
      by_cases ha0 : a = ""
      · subst ha0
        exact ⟨_, _, rfl, rfl, rfl⟩
      · have hpt : pyTruthy (PyVal.str a) = true := by
          simp [pyTruthy, ha0]
        simp only [hpt]
        exact ⟨_, _, rfl, rfl, rfl⟩

def liveEnvW : Env :=
  { ospid := 4242, platform_win32 := false, openPort := 5000,
    userDataDir := fun n => "/data/" ++ n,
    httpGet := fun _ => HttpResult.connError,
    httpPost := fun _ _ => HttpResult.connError,
    psWait := fun _ => 1 }

def servingStW : ProcState :=
  { name := PyVal.str "demo", app_dir := PyVal.str "/tmp/demo", pid := PyVal.int 4242,
    address := PyVal.str "http://127.0.0.1:9876", wsgi_running := true, wsgi_thread := true,
    event_handlers := [] }

def stoppedStW : ProcState :=
  { name := PyVal.str "demo", app_dir := PyVal.str "/tmp/demo", pid := PyVal.none,
    address := PyVal.none, wsgi_running := false, wsgi_thread := false,
    event_handlers := [] }

/-- C1 witness: a serving instance (liveness true) gets ProcessExists from
start(); a stopped instance with no pid file (liveness false) starts. -/
theorem start_guard_matches_liveness_witness :
    Process.start liveEnvW [] servingStW = Except.error PyErr.processExists ∧
    (∃ st2 fs2, Process.start liveEnvW [] stoppedStW = Except.ok (st2, fs2) ∧
      st2.wsgi_running = true ∧ st2.wsgi_thread = true) :=
  ⟨(start_guard_matches_liveness liveEnvW [] servingStW).1 servingStW rfl,
   (start_guard_matches_liveness liveEnvW [] stoppedStW).2 stoppedStW "/tmp/demo" rfl rfl
     (Or.inl rfl)⟩

/-- C6: whenever the running property reports false, stop(), get() and
send() all raise ProcessDoesNotExist. -/
theorem not_running_operations_raise (env : Env) (fs : Fs) (st st1 : ProcState)
    (route : String) (payload : PyVal)
    (h : Process.running env fs st = Except.ok (false, st1)) :
    Process.stop env fs st = Except.error PyErr.processDoesNotExist ∧
    Process.get env fs st route = Except.error PyErr.processDoesNotExist ∧
    Process.send env fs st route payload = Except.error PyErr.processDoesNotExist := by
  refine ⟨?_, ?_, ?_⟩
  · unfold Process.stop
    rw [h]
  · unfold Process.get
    rw [h]
  · unfold Process.send
    rw [h]

def freshStW : ProcState := Process.init liveEnvW "demo" none (some "/tmp/demo")

/-- C6 witness: a never-started instance (fresh from the constructor, no
pid file on disk) reports not running, and stop(), get() and send() all
raise ProcessDoesNotExist on it. -/
theorem not_running_operations_raise_witness :
    Process.stop liveEnvW [] freshStW = Except.error PyErr.processDoesNotExist ∧
    Process.get liveEnvW [] freshStW "/" = Except.error PyErr.processDoesNotExist ∧
    Process.send liveEnvW [] freshStW "event" PyVal.none = Except.error PyErr.processDoesNotExist :=
  not_running_operations_raise liveEnvW [] freshStW freshStW "/" PyVal.none rfl

/-- C7: a POST /event body without the key name is answered with the
fixed success-false response, for every state (hence for every handler
registry: no handler and no dispatch is invoked), and the state comes
back unchanged. -/
theorem post_event_missing_name (st : ProcState) (event : List (String × PyVal))
    (h : lookupKey event "name" = none) :
    Process.receiveEvent st event =
      Except.ok ([("success", PyVal.bool false),
        ("message", PyVal.str "Event missing required field \"name\".")], st) := by
  unfold Process.receiveEvent
  rw [h]
  rfl

def boomHandler : Handler := fun _ => HandlerResult.raised "boom traceback"

def trapStW : ProcState :=
  { name := PyVal.str "demo", app_dir := PyVal.str "/tmp/demo", pid := PyVal.none,
    address := PyVal.none, wsgi_running := false, wsgi_thread := false,
    event_handlers := [("x", boomHandler)] }

/-- C7 witness: the empty body on a state with a registered handler yields
exactly the fixed error response and an unchanged registry. -/
theorem post_event_missing_name_witness :
    Process.receiveEvent trapStW [] =
      Except.ok ([("success", PyVal.bool false),
        ("message", PyVal.str "Event missing required field \"name\".")], trapStW) :=
  post_event_missing_name trapStW [] rfl

/-- C8: when the registered handler of an event raises, dispatch catches
the failure and returns (does not raise) a success-false response whose
message is the formatted traceback, leaving the state unchanged. -/
theorem handler_failure_contained (st : ProcState) (event : List (String × PyVal))
    (s tb : String) (f : Handler)
    (hname : lookupKey event "name" = some (PyVal.str s))
    (hreg : lookupKey st.event_handlers s = some f)
    (hraise : f event = HandlerResult.raised tb) :
    Process.handleEvent st event =
      Except.ok ([("success", PyVal.bool false), ("message", PyVal.str tb)], st) := by
  unfold Process.handleEvent handlersGet
  rw [hname]
  dsimp only
  rw [hreg]
  dsimp only
  rw [hraise]

def divBoom : Handler := fun _ => HandlerResult.raised "ZeroDivisionError: division by zero"

def divStW : ProcState :=
  { name := PyVal.str "demo", app_dir := PyVal.str "/tmp/demo", pid := PyVal.none,
    address := PyVal.none, wsgi_running := false, wsgi_thread := false,
    event_handlers := [("div", divBoom)] }

/-- C8 witness: a handler that raises a ZeroDivisionError produces the
success-false response carrying its traceback. -/
theorem handler_failure_contained_witness :
    Process.handleEvent divStW [("name", PyVal.str "div")] =
      Except.ok ([("success", PyVal.bool false),
        ("message", PyVal.str "ZeroDivisionError: division by zero")], divStW) :=
  handler_failure_contained divStW [("name", PyVal.str "div")] "div"
    "ZeroDivisionError: division by zero" divBoom rfl rfl rfl

/-- C9: dispatching an event whose name has no registered handler returns
success-true with a non-empty informational message, and the state (hence
the handler registry) comes back unchanged. -/
theorem unhandled_event_acknowledged (st : ProcState) (event : List (String × PyVal))
    (s : String)
    (hname : lookupKey event "name" = some (PyVal.str s))
    (hreg : lookupKey st.event_handlers s = none) :
    Process.handleEvent st event =
      Except.ok ([("success", PyVal.bool true),
        ("message", PyVal.str ("Event received. no handler found for " ++ s))], st) ∧
    ("Event received. no handler found for " ++ s) ≠ "" := by
  constructor
  · unfold Process.handleEvent handlersGet
    rw [hname]
    dsimp only
    rw [hreg]
  · intro hs
    have hlen := congrArg String.length hs
    rw [strLength_append] at hlen
    have h37 : ("Event received. no handler found for ").length = 37 := rfl
    have h0 : ("" : String).length = 0 := rfl
    omega

/-- C9 witness: an event named ping with an empty registry is acknowledged
with the informational message. -/
theorem unhandled_event_acknowledged_witness :
    Process.handleEvent stoppedStW [("name", PyVal.str "ping")] =
      Except.ok ([("success", PyVal.bool true),
        ("message", PyVal.str "Event received. no handler found for ping")], stoppedStW) :=
  (unhandled_event_acknowledged stoppedStW [("name", PyVal.str "ping")] "ping" rfl rfl).1

/-- C10: unregister_event_handler is a total operation (it never raises,
even when nothing is registered under the name); afterwards the registry
has no entry for the name while every other name still maps to the
handler it had (the no-duplicate hypothesis is the invariant Python dicts
maintain by construction). -/
theorem unregister_event_handler_frame (st : ProcState) (e : String)
    (hnodup : (st.event_handlers.map Prod.fst).Nodup) :
    lookupKey (Process.unregisterEventHandler st e).event_handlers e = none ∧
    (∀ x, x ≠ e → lookupKey (Process.unregisterEventHandler st e).event_handlers x =
      lookupKey st.event_handlers x) := by
  constructor
  · exact lookup_dictPop_self st.event_handlers e hnodup
  · intro x hx
    exact lookup_dictPop_other st.event_handlers e x hx

def twoStW : ProcState :=
  { name := PyVal.str "demo", app_dir := PyVal.str "/tmp/demo", pid := PyVal.none,
    address := PyVal.none, wsgi_running := false, wsgi_thread := false,
    event_handlers := [("a", boomHandler), ("b", divBoom)] }

/-- C10 witness: removing the handler for a leaves b registered with its
original handler, and a is gone; removing the never-registered name c is
also fine. -/
theorem unregister_event_handler_frame_witness :
    lookupKey (Process.unregisterEventHandler twoStW "a").event_handlers "a" = none ∧
    lookupKey (Process.unregisterEventHandler twoStW "a").event_handlers "b" =
      lookupKey twoStW.event_handlers "b" ∧
    lookupKey (Process.unregisterEventHandler twoStW "c").event_handlers "c" = none :=
  ⟨(unregister_event_handler_frame twoStW "a" (by decide)).1,
   (unregister_event_handler_frame twoStW "a" (by decide)).2 "b" (by decide),
   (unregister_event_handler_frame twoStW "c" (by decide)).1⟩

def lockStC : ProcState :=
  { name := PyVal.str "demo", app_dir := PyVal.str "/tmp/demo", pid := PyVal.none,
    address := PyVal.str "http://127.0.0.1:9876", wsgi_running := false, wsgi_thread := false,
    event_handlers := [] }

def lockFsC : Fs := [("/tmp/demo/.pid", "123\nhttp://127.0.0.1:9876")]

/-- C2 (counterexample): writing pid 123 with address
http://127.0.0.1:9876 and reading the lock file back yields the pair
("123\n", address) — the pid comes back with a trailing newline, so the
read pair is not the (pid, address) pair that was written (str(123) is
"123", and GET / likewise reports the pid without a newline). -/
theorem lock_roundtrip_counterexample :
    Process.writePidFile [] lockStC (PyVal.int 123) (PyVal.str "http://127.0.0.1:9876") =
      Except.ok lockFsC ∧
    Process.readPidFile lockFsC lockStC = Except.ok ("123\n", "http://127.0.0.1:9876") ∧
    ("123\n", "http://127.0.0.1:9876") ≠ (pyStr (PyVal.int 123), "http://127.0.0.1:9876") := by
  refine ⟨rfl, rfl, ?_⟩
  intro hcontra
  exact absurd (congrArg Prod.fst hcontra) (by decide)

/-- C2 (amended): after the Lock Store write of (pid, address) — where
the write persists `self.address`, which must be a nonempty string free
of newlines — the lock file contains exactly the two lines
`str(pid) ++ "\n"` and the address, and reading it back yields
(str(pid) ++ "\n", address): the address round-trips exactly, while the
pid gains a trailing newline, differing from the written pid and from the
pid GET / reports by exactly that newline. -/
theorem lock_write_read_roundtrip (fs : Fs) (st : ProcState) (pid addrArg : PyVal)
    (d a : String)
    (hd : st.app_dir = PyVal.str d) (ha : st.address = PyVal.str a)
    (hpid : ∀ c ∈ (pyStr pid).data, c ≠ '\n')
    (haNl : ∀ c ∈ a.data, c ≠ '\n') (hane : a ≠ "") :
    Process.writePidFile fs st pid addrArg =
      Except.ok (fsWrite fs (d ++ "/.pid") (pyStr pid ++ "\n" ++ a)) ∧
    fsRead (fsWrite fs (d ++ "/.pid") (pyStr pid ++ "\n" ++ a)) (d ++ "/.pid") =
      some (pyStr pid ++ "\n" ++ a) ∧
    pyReadlines (pyStr pid ++ "\n" ++ a) = [pyStr pid ++ "\n", a] ∧
    Process.readPidFile (fsWrite fs (d ++ "/.pid") (pyStr pid ++ "\n" ++ a)) st =
      Except.ok (pyStr pid ++ "\n", a) := by
  have hlines : pyReadlines (pyStr pid ++ "\n" ++ a) = [pyStr pid ++ "\n", a] :=
    pyReadlines_two_lines (pyStr pid) a hpid haNl hane
  have hwrite : Process.writePidFile fs st pid addrArg =
      Except.ok (fsWrite fs (d ++ "/.pid") (pyStr pid ++ "\n" ++ a)) := by
    unfold Process.writePidFile Process.pid_file
    rw [hd, ha]
  have hread : fsRead (fsWrite fs (d ++ "/.pid") (pyStr pid ++ "\n" ++ a)) (d ++ "/.pid") =
      some (pyStr pid ++ "\n" ++ a) :=
    lookup_dictSet_self fs (d ++ "/.pid") (pyStr pid ++ "\n" ++ a)
  refine ⟨hwrite, hread, hlines, ?_⟩
  unfold Process.readPidFile Process.pid_file
  rw [hd]
  dsimp only
  rw [hread]
  dsimp only
  rw [hlines]

/-- C2 (amended) witness: pid 123 with /tmp/demo and
http://127.0.0.1:9876 round-trips to ("123\n", address). -/
theorem lock_write_read_roundtrip_witness :
    Process.readPidFile
        (fsWrite [] ("/tmp/demo" ++ "/.pid") (pyStr (PyVal.int 123) ++ "\n" ++ "http://127.0.0.1:9876"))
        lockStC =
      Except.ok (pyStr (PyVal.int 123) ++ "\n", "http://127.0.0.1:9876") :=
  (lock_write_read_roundtrip [] lockStC (PyVal.int 123) (PyVal.str "http://127.0.0.1:9876")
    "/tmp/demo" "http://127.0.0.1:9876" rfl rfl (by decide) (by decide) (by decide)).2.2.2

def idxEnv : Env :=
  { ospid := 4242, platform_win32 := true, openPort := 5000,
    userDataDir := fun n => "/data/" ++ n,
    httpGet := fun _ => HttpResult.connError,
    httpPost := fun _ _ => HttpResult.connError,
    psWait := fun _ => 0 }

def idxSt : ProcState :=
  { name := PyVal.str "demo", app_dir := PyVal.str "/tmp/demo", pid := PyVal.int 4242,
    address := PyVal.str "http://127.0.0.1:9876", wsgi_running := true, wsgi_thread := true,
    event_handlers := [] }

/-- C3: the GET / identity snapshot of a running instance named demo with
pid 4242 carries the keys succes, name, pid, app_dir, address — the first
key is the misspelled `succes`, no `success` key exists, and the pid is
the decimal string "4242" rather than the integer 4242. -/
theorem index_snapshot_succes_and_string_pid :
    Process.index idxEnv idxSt =
      [("succes", PyVal.bool true), ("name", PyVal.str "demo"),
       ("pid", PyVal.str "4242"), ("app_dir", PyVal.str "/tmp/demo"),
       ("address", PyVal.str "http://127.0.0.1:9876")] ∧
    lookupKey (Process.index idxEnv idxSt) "success" = none ∧
    lookupKey (Process.index idxEnv idxSt) "pid" = some (PyVal.str "4242") :=
  ⟨rfl, rfl, rfl⟩

/-- C4: on the instance that owns the server, when the self-sent POST of
the stop event fails with requests.ConnectionError, the error is caught
and logged but the local `response` is never assigned, so stop() raises
UnboundLocalError at `return response` instead of completing normally. -/
theorem stop_unbound_local_on_connection_error :
    Process.stop idxEnv [] idxSt = Except.error PyErr.unboundLocalError := rfl

def staleFs : Fs := [("/tmp/demo/.pid", "123\nhttp://127.0.0.1:9876")]

def staleSt : ProcState :=
  { name := PyVal.str "demo", app_dir := PyVal.str "/tmp/demo", pid := PyVal.none,
    address := PyVal.none, wsgi_running := false, wsgi_thread := false,
    event_handlers := [] }

def refusedEnv : Env :=
  { ospid := 7, platform_win32 := true, openPort := 5000,
    userDataDir := fun n => "/data/" ++ n,
    httpGet := fun _ => HttpResult.connError,
    httpPost := fun _ _ => HttpResult.connError,
    psWait := fun _ => 0 }

def badStatusEnv : Env :=
  { ospid := 7, platform_win32 := true, openPort := 5000,
    userDataDir := fun n => "/data/" ++ n,
    httpGet := fun _ => HttpResult.resp false none,
    httpPost := fun _ _ => HttpResult.connError,
    psWait := fun _ => 0 }

def staleStAfter : ProcState :=
  { name := PyVal.str "demo", app_dir := PyVal.str "/tmp/demo", pid := PyVal.str "123\n",
    address := PyVal.str "http://127.0.0.1:9876", wsgi_running := false, wsgi_thread := false,
    event_handlers := [] }

/-- C5: in the final step of the running check — lock file (123,
http://127.0.0.1:9876) read, recorded PID found to exist — a refused
connection at the recorded address makes `requests.get` raise
ConnectionError out of the property instead of returning false; only an
HTTP response that is falsy (an error status) yields false. -/
theorem running_probe_transport_failure_propagates :
    Process.running refusedEnv staleFs staleSt = Except.error PyErr.connectionError ∧
    Process.running badStatusEnv staleFs staleSt = Except.ok (false, staleStAfter) :=
  ⟨rfl, rfl⟩
